import Mathlib

/-!
Verification development for the NHM_Specimen_Counter batch pipeline.

This file is a shallow embedding of `src/run_count_specimens_with_counts.py`,
the batch detection-and-reporting pipeline: banner annotation
(`draw_count_banner`), output-bundle layout (`create_output_structure`),
report generation (`save_detection_summary`) and the driver (`main`).

Modelling conventions:
* Python real-valued arithmetic (float) is modelled exactly over unnormalized
  fractions (`Frac`, an integer numerator/denominator pair).  Where the float
  rounding of the source could in principle differ from exact rational
  arithmetic, a comment at the definition states the caveat.
* The external detection model (ultralytics YOLO) is an opaque collaborator:
  each input file carries the detection confidences the model returns for it.
* `cv2.imread` is modelled by an `Option` of the loaded image's
  (width, height); `None` is the load-failure case of the source.
* `cv2.imwrite` returns a success flag that the source ignores; the flag is
  carried per file so that both behaviours are expressible.
* `cv2.getTextSize` is an opaque text-metric oracle, a parameter of the
  annotator.
* Filesystem effects (files written, originals copied, bundle creation) are
  recorded in a run trace.
-/

namespace SpecimenCounter

/-! ## String helpers (models of the Python `str` methods used) -/

/-- Model of Python `str.endswith` (used by `Path.glob` suffix patterns
`*<ext>`: a name matches the pattern `*X` exactly when it ends with `X`). -/
def strEndsWith (s suf : String) : Bool := suf.data.isSuffixOf s.data

/-- Model of Python `str.startswith` (used for the hidden-file filter). -/
def strStartsWith (s p : String) : Bool := p.data.isPrefixOf s.data

/-- Model of Python `str.upper` on ASCII strings (the extension allow-list is
pure ASCII, where Python and `Char.toUpper` agree). -/
def upperAscii (s : String) : String := String.mk (s.data.map Char.toUpper)

/-! ## Exact fraction arithmetic

`Frac` is an unnormalized rational: the Python code computes means and
formatting on floats; all the concrete values the claims mention are exactly
representable computations on rationals, which `Frac` carries without
normalization so that every definition evaluates by kernel reduction.
All fractions constructed below have a positive denominator. -/

structure Frac where
  num : ℤ
  den : ℤ
deriving DecidableEq, Repr

/-- Addition of fractions (common-denominator form, no normalization). -/
def Frac.add (a b : Frac) : Frac := ⟨a.num * b.den + b.num * a.den, a.den * b.den⟩

/-- Division of a fraction by a natural number (used for means). -/
def Frac.divNat (a : Frac) (n : ℕ) : Frac := ⟨a.num, a.den * n⟩

/-- Comparison of fractions with positive denominators. -/
def Frac.lt (a b : Frac) : Bool := a.num * b.den < b.num * a.den

/-- Model of Python `max` on two numbers: returns the first argument unless
the second is strictly larger. -/
def Frac.max (a b : Frac) : Frac := if a.lt b then b else a

/-- Floor of a fraction with positive denominator (`Int` division in Lean is
Euclidean, which is the floor for positive denominators). -/
def Frac.floor (a : Frac) : ℤ := a.num / a.den

/-- Sum of a list of fractions, as `sum()` over confidences. -/
def Frac.sumList (l : List Frac) : Frac := l.foldr Frac.add ⟨0, 1⟩

/-! ## Decimal formatting (models of the Python format specs used)

Python `format` rounds the shortest decimal of an IEEE double half-to-even;
on every value formatted in this development the double is exact enough that
this agrees with half-to-even rounding of the exact rational, which is what
`roundHalfEvenScaled` implements. -/

/-- Round a nonnegative fraction to the nearest integer, ties to even. -/
def roundHalfEvenScaled (f : Frac) : ℤ :=
  let q := f.num / f.den
  let r := f.num % f.den
  if 2 * r < f.den then q
  else if f.den < 2 * r then q + 1
  else if q % 2 = 0 then q else q + 1

/-- Left-pad the decimal digits of `n` with zeros to width `d`. -/
def padZeros (n : ℕ) (d : ℕ) : String :=
  let s := toString n
  String.mk (List.replicate (d - s.length) '0') ++ s

/-- Model of Python `format(x, ".df")` for nonnegative `x`:
`d` decimal places, half-to-even. -/
def formatFixed (d : ℕ) (f : Frac) : String :=
  let n := (roundHalfEvenScaled ⟨f.num * (10 : ℤ) ^ d, f.den⟩).toNat
  toString (n / 10 ^ d) ++ "." ++ padZeros (n % 10 ^ d) d

/-- Model of Python `format(x, ".1%")`: the value times 100, one decimal
place, followed by a percent sign. -/
def formatPct1 (f : Frac) : String :=
  formatFixed 1 ⟨f.num * 100, f.den⟩ ++ "%"

/-! ## Data model -/

/-- One file of the input directory together with the behaviour of the
external collaborators on it: what `cv2.imread` returns for it (`none` =
load failure, `some (width, height)` = the loaded raster's size), the
confidences the detection model reports for it, whether `cv2.imwrite` of its
annotated copy reports success, and whether `shutil.copy2` of the original
succeeds. -/
structure ImageFile where
  name : String
  loadResult : Option (ℕ × ℕ)
  detections : List Frac
  writeOk : Bool
  copyOk : Bool
deriving DecidableEq, Repr

/-- One entry of `results_data` (source lines 240-245): filename, detection
count, average confidence, and `image_size = (width, height)`. -/
structure ImageOutcome where
  filename : String
  count : ℕ
  avg_confidence : Frac
  image_size : ℕ × ℕ
deriving DecidableEq, Repr

/-! ## Annotator (`draw_count_banner`, source lines 19-68) -/

/-- Opaque model of `cv2.getTextSize`: given the text, the font scale and the
thickness, returns `((text_width, text_height), baseline)`.  The annotator is
parametric in this oracle because the Hershey font metrics live inside
OpenCV. -/
structure TextMetrics where
  size : String → Frac → ℤ → (ℤ × ℤ) × ℤ

/-- The observable result of `draw_count_banner`: the banner region's height,
the count line, and the confidence line if it was drawn (`none` when the
source omits it). -/
structure BannerRender where
  bannerHeight : ℕ
  countText : String
  confLine : Option String
deriving DecidableEq, Repr

/-- Model of `draw_count_banner(image, count, confidence_avg=None)`
(source lines 19-68).

* `banner_height = max(80, int(height * 0.06))`: as the float `0.06` is
  slightly below `6/100` and never by enough to change the truncation,
  this is `max 80 (6 * height / 100)` in exact arithmetic.
* `font_scale = max(1.5, banner_height / 50)`, `thickness =
  max(2, int(banner_height / 20))`.
* The count text is always drawn; the confidence text is drawn only when a
  confidence was supplied and `conf_y < banner_height - 10`, where
  `conf_y = text_y + int(text_height * 1.2)` and
  `text_y = (banner_height + text_height) // 2`, `text_height` being the
  metric height of the count text.  `int(text_height * 1.2)` is modelled as
  `text_height * 6 / 5` (floor); the float product can differ from the exact
  one only when they straddle an integer, which does not affect a strict
  comparison holding with slack. -/
def draw_count_banner (m : TextMetrics) (width height : ℕ) (count : ℕ)
    (confidence_avg : Option Frac) : BannerRender :=
  let banner_height : ℕ := Max.max 80 (6 * height / 100)
  let font_scale : Frac := Frac.max ⟨3, 2⟩ ⟨(banner_height : ℤ), 50⟩
  let thickness : ℤ := Max.max 2 ((banner_height : ℤ) / 20)
  let count_text : String := "Specimens Detected: " ++ toString count
  let text_height : ℤ := (m.size count_text font_scale thickness).1.2
  let text_y : ℤ := ((banner_height : ℤ) + text_height) / 2
  match confidence_avg with
  | none => { bannerHeight := banner_height, countText := count_text, confLine := none }
  | some c =>
    let conf_text : String := "Avg Confidence: " ++ formatPct1 c
    let conf_y : ℤ := text_y + text_height * 6 / 5
    if conf_y < (banner_height : ℤ) - 10 then
      { bannerHeight := banner_height, countText := count_text, confLine := some conf_text }
    else
      { bannerHeight := banner_height, countText := count_text, confLine := none }

/-- The driver's annotator call (source line 232): the average confidence is
supplied exactly when `count > 0`. -/
def annotateForOutcome (m : TextMetrics) (width height : ℕ) (count : ℕ)
    (avg : Frac) : BannerRender :=
  draw_count_banner m width height count (if 0 < count then some avg else none)

/-- The source's fit test for the confidence line (`conf_y <
banner_height - 10`, source line 62), as a standalone predicate.  Only the
count text's metric height enters the test. -/
def confLineFits (m : TextMetrics) (height count : ℕ) : Bool :=
  let banner_height : ℕ := Max.max 80 (6 * height / 100)
  let font_scale : Frac := Frac.max ⟨3, 2⟩ ⟨(banner_height : ℤ), 50⟩
  let thickness : ℤ := Max.max 2 ((banner_height : ℤ) / 20)
  let count_text : String := "Specimens Detected: " ++ toString count
  let text_height : ℤ := (m.size count_text font_scale thickness).1.2
  let text_y : ℤ := ((banner_height : ℤ) + text_height) / 2
  decide (text_y + text_height * 6 / 5 < (banner_height : ℤ) - 10)

/-- A text-metric oracle consistent with OpenCV's Hershey-simplex metrics,
whose glyph height is about 22 pixels at font scale 1: the measured height is
`⌊22 * font_scale⌋` and the measured width grows with the text length. -/
def sampleMetrics : TextMetrics :=
  { size := fun t fs _ => ((12 * (t.length : ℤ), Frac.floor ⟨22 * fs.num, fs.den⟩), 0) }

/-! ## Discovery (source lines 180-191) -/

/-- The extension allow-list of the source (a Python set literal; the claims
proved below do not depend on the iteration order, which Python leaves
unspecified for sets). -/
def image_extensions : List String := [".jpg", ".jpeg", ".png", ".bmp", ".tiff", ".tif"]

/-- Model of the discovery loop: for each allow-listed extension, the files
matching `*<ext>` and then those matching `*<EXT>` (uppercased extension) are
appended; hidden files (leading dot) are then filtered out.  `listing` is the
input directory's contents. -/
def discoverImages (listing : List ImageFile) : List ImageFile :=
  (image_extensions.flatMap (fun ext =>
      listing.filter (fun f => strEndsWith f.name ext) ++
      listing.filter (fun f => strEndsWith f.name (upperAscii ext)))).filter
    (fun f => !(strStartsWith f.name (".")))

/-! ## Per-image processing (source lines 199-248) -/

/-- Model of one iteration of the processing loop for a discovered image:
`none` when `cv2.imread` fails (the source logs and `continue`s, source lines
206-209); otherwise the appended `results_data` entry, with
`count = len(result.boxes)`, `avg_confidence = mean of the confidences` when
`count > 0` and `0.0` otherwise, and `image_size = (width, height)` of the
loaded image (source lines 211-245). -/
def processImage (f : ImageFile) : Option ImageOutcome :=
  match f.loadResult with
  | none => none
  | some wh =>
    let count := f.detections.length
    some { filename := f.name
           count := count
           avg_confidence :=
             if 0 < count then (Frac.sumList f.detections).divNat count else ⟨0, 1⟩
           image_size := wh }

/-! ## Reporter (`save_detection_summary`, source lines 82-120) -/

/-- Total specimens: `sum(r['count'] for r in results_data)`. -/
def totalSpecimens (rs : List ImageOutcome) : ℕ := (rs.map ImageOutcome.count).sum

/-- The lines of `summary/detection_summary.txt` (source lines 87-105), in
order, one string per written line.  `ts` is the analysis timestamp string.
The average line is guarded by `if results_data:` in the source, so it is
produced only for a nonempty outcome sequence. -/
def summaryTextLines (ts : String) (rs : List ImageOutcome) : List String :=
  ["YOLO Specimen Count Detection Results",
   String.mk (List.replicate 50 '='),
   "Analysis Date: " ++ ts,
   "Total Images Processed: " ++ toString rs.length,
   "Total Specimens Detected: " ++ toString (totalSpecimens rs)]
  ++ (if rs.isEmpty then [] else
      ["Average Specimens per Image: " ++
        formatFixed 1 ⟨(totalSpecimens rs : ℤ), (rs.length : ℤ)⟩])
  ++ ["", "Individual Image Results:", String.mk (List.replicate 30 '-')]
  ++ rs.flatMap (fun r =>
      ["Image: " ++ r.filename,
       "  Specimens: " ++ toString r.count,
       "  Avg Confidence: " ++ formatPct1 r.avg_confidence,
       "  Image Size: (" ++ toString r.image_size.1 ++ ", " ++ toString r.image_size.2 ++ ")",
       ""])

/-- The header row of `summary/detection_results.csv` (source line 111). -/
def csvHeader : List String :=
  ["Filename", "Specimen_Count", "Avg_Confidence", "Width", "Height"]

/-- One data row of the CSV report (source lines 112-120). -/
def csvRow (r : ImageOutcome) : List String :=
  [r.filename, toString r.count, formatFixed 3 r.avg_confidence,
   toString r.image_size.1, toString r.image_size.2]

/-- The data rows of `summary/detection_results.csv`, one per outcome, in
order. -/
def csvRows (rs : List ImageOutcome) : List (List String) := rs.map csvRow

/-! ## Pipeline driver (`main`, source lines 122-280) -/

/-- The run configuration and environment behaviour: whether `best.pt`
exists, whether the input directory exists, whether `YOLO(model_path)`
succeeds, and the input directory's contents. -/
structure Env where
  modelExists : Bool
  dirExists : Bool
  modelLoads : Bool
  listing : List ImageFile
deriving DecidableEq, Repr

/-- Everything observable about one invocation of `main`:
whether the timestamped output bundle was created
(`create_output_structure`, source line 143), the accumulated
`results_data`, the annotated-image write calls and the writes that actually
produced a file, the two summary reports (`none` when the run failed before
`save_detection_summary`), the originals copied into `original_images/`, and
the exit status with the failure message. -/
structure RunTrace where
  bundleCreated : Bool
  outcomes : List ImageOutcome
  writeCalls : List String
  filesWritten : List String
  summaryText : Option (List String)
  summaryCsv : Option (List (List String))
  originalsCopied : List String
  success : Bool
  failReason : Option String
deriving DecidableEq, Repr

/-- A trace for a run that terminated through `sys.exit(1)` before the
processing loop. -/
def failTrace (bundle : Bool) (msg : String) : RunTrace :=
  { bundleCreated := bundle, outcomes := [], writeCalls := [], filesWritten := [],
    summaryText := none, summaryCsv := none, originalsCopied := [],
    success := false, failReason := some msg }

/-- Model of the archiving loop (source lines 257-258): originals are copied
one by one in discovery order; a failing `shutil.copy2` raises out of the
loop (there is no per-file handler), so later files are not copied and the
outer handler at source lines 276-278 turns the run into a failure.  Returns
the copied names and whether the loop completed. -/
def copyOriginals : List ImageFile → List String × Bool
  | [] => ([], true)
  | f :: rest =>
    if f.copyOk then
      let r := copyOriginals rest
      (f.name :: r.1, r.2)
    else ([], false)

/-- Model of `main` (source lines 122-280).  `ts` is the analysis timestamp
used by the reporter.  The source's order of effects is:
model-existence check, input-directory check, bundle creation, model load,
discovery (exit when no images), per-image processing (skip on load failure,
write annotated copy ignoring the `imwrite` result, append the outcome),
report writing, originals archiving, success. -/
def runMain (env : Env) (ts : String) : RunTrace :=
  if env.modelExists = false then failTrace false ("Model not found")
  else if env.dirExists = false then failTrace false ("Test images directory not found")
  else if env.modelLoads = false then failTrace true ("Error loading model")
  else
    let files := discoverImages env.listing
    if files = [] then failTrace true ("No images found")
    else
      let outs := files.filterMap processImage
      let cp := copyOriginals files
      { bundleCreated := true
        outcomes := outs
        writeCalls := (files.filter (fun f => f.loadResult.isSome)).map
          (fun f => "counted_" ++ f.name)
        filesWritten := (files.filter (fun f => f.loadResult.isSome && f.writeOk)).map
          (fun f => "counted_" ++ f.name)
        summaryText := some (summaryTextLines ts outs)
        summaryCsv := some (csvRows outs)
        originalsCopied := cp.1
        success := cp.2
        failReason := if cp.2 then none else some ("Processing failed") }

/-! ## Concrete runs used by the claim witnesses and counterexamples -/

/-- Scenario A of the specification: three readable images yielding 5, 0 and
3 detections with the given confidences. -/
def envA : Env :=
  { modelExists := true, dirExists := true, modelLoads := true,
    listing :=
      [{ name := "img1.jpg", loadResult := some (640, 480),
         detections := [⟨9, 10⟩, ⟨8, 10⟩, ⟨7, 10⟩, ⟨6, 10⟩, ⟨5, 10⟩],
         writeOk := true, copyOk := true },
       { name := "img2.jpg", loadResult := some (640, 480),
         detections := [], writeOk := true, copyOk := true },
       { name := "img3.jpg", loadResult := some (800, 600),
         detections := [⟨95, 100⟩, ⟨85, 100⟩, ⟨75, 100⟩],
         writeOk := true, copyOk := true }] }

/-- A directory whose single image matches the allow-list but cannot be
loaded; every outcome-producing step is skipped, so the reports are written
over an empty outcome sequence. -/
def envEmptyOutcomes : Env :=
  { modelExists := true, dirExists := true, modelLoads := true,
    listing := [{ name := "broken.jpg", loadResult := none, detections := [],
                  writeOk := true, copyOk := true }] }

/-- A directory with no allow-listed image (only a text file). -/
def envNoImages : Env :=
  { modelExists := true, dirExists := true, modelLoads := true,
    listing := [{ name := "readme.txt", loadResult := none, detections := [],
                  writeOk := true, copyOk := true }] }

/-- A good image followed by a file that matches the allow-list but fails to
load. -/
def envOneBad : Env :=
  { modelExists := true, dirExists := true, modelLoads := true,
    listing :=
      [{ name := "good.jpg", loadResult := some (100, 100),
         detections := [⟨9, 10⟩], writeOk := true, copyOk := true },
       { name := "bad.jpg", loadResult := none, detections := [],
         writeOk := true, copyOk := true }] }

/-- A readable image whose original cannot be copied during archiving. -/
def envCopyFails : Env :=
  { modelExists := true, dirExists := true, modelLoads := true,
    listing := [{ name := "a.jpg", loadResult := some (10, 10),
                  detections := [⟨1, 2⟩], writeOk := true, copyOk := false }] }

/-- A readable image whose annotated copy fails to be written
(`cv2.imwrite` reports failure). -/
def envWriteFails : Env :=
  { modelExists := true, dirExists := true, modelLoads := true,
    listing := [{ name := "x.jpg", loadResult := some (10, 20),
                  detections := [⟨1, 2⟩], writeOk := false, copyOk := true }] }

-- sanity checks on helpers
example : upperAscii (".jpg") = (".JPG") := rfl
example : strEndsWith ("a.Jpg") (".jpg") = false := by decide
example : formatFixed 1 ⟨80, 30⟩ = "2.7" := by decide
example : formatFixed 3 ⟨7, 10⟩ = "0.700" := by decide
example : formatPct1 ⟨0, 1⟩ = "0.0%" := by decide
example : formatPct1 ⟨35, 50⟩ = "70.0%" := by decide
example :
    (draw_count_banner sampleMetrics 1000 1000 5 (some ⟨7, 10⟩)).confLine = none := by decide
example : (draw_count_banner sampleMetrics 1000 1334 0 none).bannerHeight = 80 := by decide
example : "Total Specimens Detected: 8" ∈ (runMain envA "T").summaryText.getD [] := by decide
example : "Average Specimens per Image: 2.7" ∈ (runMain envA "T").summaryText.getD [] := by decide
example : (runMain envA "T").success = true := by decide

/-! ## Helper lemmas -/

lemma string_append_left_cancel (s t u : String) (h : s ++ t = s ++ u) : t = u := by
  cases s; cases t; cases u
  simp only [HAppend.hAppend, Append.append, String.append] at h
  injection h with h
  exact congrArg String.mk (List.append_cancel_left h)

/-- Membership in the discovery result: exactly the non-hidden files of the
listing whose name ends with an allow-listed extension, spelled lowercase or
uppercase. -/
lemma mem_discoverImages {l : List ImageFile} {f : ImageFile} :
    f ∈ discoverImages l ↔
      f ∈ l ∧ strStartsWith f.name (".") = false ∧
        (strEndsWith f.name (".jpg") = true ∨ strEndsWith f.name (".JPG") = true ∨
         strEndsWith f.name (".jpeg") = true ∨ strEndsWith f.name (".JPEG") = true ∨
         strEndsWith f.name (".png") = true ∨ strEndsWith f.name (".PNG") = true ∨
         strEndsWith f.name (".bmp") = true ∨ strEndsWith f.name (".BMP") = true ∨
         strEndsWith f.name (".tiff") = true ∨ strEndsWith f.name (".TIFF") = true ∨
         strEndsWith f.name (".tif") = true ∨ strEndsWith f.name (".TIF") = true) := by
  have hu1 : upperAscii (".jpg") = (".JPG") := rfl
  have hu2 : upperAscii (".jpeg") = (".JPEG") := rfl
  have hu3 : upperAscii (".png") = (".PNG") := rfl
  have hu4 : upperAscii (".bmp") = (".BMP") := rfl
  have hu5 : upperAscii (".tiff") = (".TIFF") := rfl
  have hu6 : upperAscii (".tif") = (".TIF") := rfl
  simp only [discoverImages, image_extensions, List.mem_filter, List.mem_flatMap,
    List.mem_append, List.mem_cons, List.not_mem_nil, or_false,
    hu1, hu2, hu3, hu4, hu5, hu6, Bool.not_eq_true', Bool.not_eq_false]
  constructor
  · rintro ⟨⟨ext, hext, hmem⟩, hhid⟩
    rcases hext with h | h | h | h | h | h <;> subst h <;>
      rcases hmem with ⟨hl, he⟩ | ⟨hl, he⟩ <;> exact ⟨hl, hhid, by tauto⟩
  · rintro ⟨hl, hhid, hcase⟩
    refine ⟨?_, hhid⟩
    rcases hcase with h | h | h | h | h | h | h | h | h | h | h | h
    · exact ⟨".jpg", by tauto, Or.inl ⟨hl, h⟩⟩
    · exact ⟨".jpg", by tauto, Or.inr ⟨hl, h⟩⟩
    · exact ⟨".jpeg", by tauto, Or.inl ⟨hl, h⟩⟩
    · exact ⟨".jpeg", by tauto, Or.inr ⟨hl, h⟩⟩
    · exact ⟨".png", by tauto, Or.inl ⟨hl, h⟩⟩
    · exact ⟨".png", by tauto, Or.inr ⟨hl, h⟩⟩
    · exact ⟨".bmp", by tauto, Or.inl ⟨hl, h⟩⟩
    · exact ⟨".bmp", by tauto, Or.inr ⟨hl, h⟩⟩
    · exact ⟨".tiff", by tauto, Or.inl ⟨hl, h⟩⟩
    · exact ⟨".tiff", by tauto, Or.inr ⟨hl, h⟩⟩
    · exact ⟨".tif", by tauto, Or.inl ⟨hl, h⟩⟩
    · exact ⟨".tif", by tauto, Or.inr ⟨hl, h⟩⟩

lemma discover_subset {l : List ImageFile} {f : ImageFile}
    (h : f ∈ discoverImages l) : f ∈ l :=
  (mem_discoverImages.mp h).1

lemma copyOriginals_all_ok {l : List ImageFile}
    (h : ∀ f ∈ l, f.copyOk = true) :
    copyOriginals l = (l.map ImageFile.name, true) := by
  induction l with
  | nil => rfl
  | cons a as ih =>
    have ha := h a (by simp)
    have has := ih (fun f hf => h f (by simp [hf]))
    simp [copyOriginals, ha, has]

lemma copyOriginals_fail {l : List ImageFile} {g : ImageFile}
    (hg : g ∈ l) (hbad : g.copyOk = false) :
    (copyOriginals l).2 = false := by
  induction l with
  | nil => simp at hg
  | cons a as ih =>
    rcases List.mem_cons.mp hg with h | h
    · subst h
      simp [copyOriginals, hbad]
    · by_cases ha : a.copyOk <;> simp [copyOriginals, ha, ih h]

lemma processImage_name {f : ImageFile} {o : ImageOutcome}
    (h : processImage f = some o) : o.filename = f.name := by
  unfold processImage at h
  cases hl : f.loadResult with
  | none => rw [hl] at h; simp at h
  | some wh => rw [hl] at h; simp at h; rw [← h]

lemma processImage_isSome {f : ImageFile} {o : ImageOutcome}
    (h : processImage f = some o) : f.loadResult.isSome = true := by
  unfold processImage at h
  cases hl : f.loadResult with
  | none => rw [hl] at h; simp at h
  | some wh => simp [hl]

/-- With every annotated-image write succeeding, the files written are in
one-to-one correspondence with the outcomes, carrying the same base
filename under the fixed prefix. -/
lemma writes_eq_outcomes_map {l : List ImageFile}
    (hw : ∀ f ∈ l, f.writeOk = true) :
    (l.filter (fun f => f.loadResult.isSome && f.writeOk)).map
        (fun f => "counted_" ++ f.name)
      = (l.filterMap processImage).map (fun o => "counted_" ++ o.filename) := by
  induction l with
  | nil => rfl
  | cons a as ih =>
    have ha := hw a (by simp)
    have has := ih (fun f hf => hw f (by simp [hf]))
    cases hl : a.loadResult with
    | none =>
      simpa [List.filter_cons, List.filterMap_cons, processImage, hl, ha] using has
    | some wh =>
      simpa [List.filter_cons, List.filterMap_cons, processImage, hl, ha] using has

/-- Unfolding of `runMain` on a run that reaches the processing loop. -/
lemma runMain_processing (env : Env) (ts : String)
    (h1 : env.modelExists = true) (h2 : env.dirExists = true)
    (h3 : env.modelLoads = true) (hne : discoverImages env.listing ≠ []) :
    runMain env ts =
      { bundleCreated := true
        outcomes := (discoverImages env.listing).filterMap processImage
        writeCalls := ((discoverImages env.listing).filter
            (fun f => f.loadResult.isSome)).map (fun f => "counted_" ++ f.name)
        filesWritten := ((discoverImages env.listing).filter
            (fun f => f.loadResult.isSome && f.writeOk)).map
            (fun f => "counted_" ++ f.name)
        summaryText := some (summaryTextLines ts
            ((discoverImages env.listing).filterMap processImage))
        summaryCsv := some (csvRows
            ((discoverImages env.listing).filterMap processImage))
        originalsCopied := (copyOriginals (discoverImages env.listing)).1
        success := (copyOriginals (discoverImages env.listing)).2
        failReason := if (copyOriginals (discoverImages env.listing)).2 then none
          else some ("Processing failed") } := by
  simp [runMain, h1, h2, h3, hne]

/-- The total-specimens line is among the text report's lines. -/
lemma totals_line_mem (ts : String) (rs : List ImageOutcome) :
    ("Total Specimens Detected: " ++ toString (totalSpecimens rs))
      ∈ summaryTextLines ts rs := by
  simp [summaryTextLines]

/-- Every outcome contributes its image line to the text report. -/
lemma image_line_mem {rs : List ImageOutcome} {r : ImageOutcome} (hr : r ∈ rs)
    (ts : String) : ("Image: " ++ r.filename) ∈ summaryTextLines ts rs := by
  simp only [summaryTextLines, List.mem_append, List.mem_flatMap]
  exact Or.inr ⟨r, hr, by simp⟩

/-- The banner height does not depend on the metric oracle, the count or the
confidence argument. -/
lemma draw_count_banner_height (m : TextMetrics) (w h c : ℕ)
    (conf : Option Frac) :
    (draw_count_banner m w h c conf).bannerHeight = Max.max 80 (6 * h / 100) := by
  unfold draw_count_banner
  cases conf with
  | none => rfl
  | some cc => dsimp only; split <;> rfl

/-! ## Claim theorems -/

/-- Claim C1: on every run that reaches the processing loop, and in which
every annotated-image write succeeds, the sum of `ImageOutcome.count` over
the accumulated outcomes equals the "Total Specimens Detected" value written
in the text summary, and the annotated-image files written are in one-to-one
correspondence with the outcomes — the same base filename under the fixed
`counted_` prefix — so in particular their numbers are equal. -/
theorem c1_totals_and_one_to_one (env : Env) (ts : String)
    (h1 : env.modelExists = true) (h2 : env.dirExists = true)
    (h3 : env.modelLoads = true) (hne : discoverImages env.listing ≠ [])
    (hw : ∀ f ∈ env.listing, f.writeOk = true) :
    ("Total Specimens Detected: " ++
        toString (((runMain env ts).outcomes.map ImageOutcome.count).sum))
      ∈ (runMain env ts).summaryText.getD [] ∧
    (runMain env ts).filesWritten
      = (runMain env ts).outcomes.map (fun o => "counted_" ++ o.filename) ∧
    (runMain env ts).filesWritten.length = (runMain env ts).outcomes.length := by
  rw [runMain_processing env ts h1 h2 h3 hne]
  have hmap := writes_eq_outcomes_map (fun f hf => hw f (discover_subset hf))
  refine ⟨?_, ?_, ?_⟩
  · simpa [totalSpecimens] using
      totals_line_mem ts ((discoverImages env.listing).filterMap processImage)
  · exact hmap
  · show (((discoverImages env.listing).filter
        (fun f => f.loadResult.isSome && f.writeOk)).map
        (fun f => "counted_" ++ f.name)).length = _
    rw [hmap]
    simp

/-- Witness for C1 at the Scenario-A run. -/
theorem c1_witness :
    ("Total Specimens Detected: " ++
        toString (((runMain envA "T").outcomes.map ImageOutcome.count).sum))
      ∈ (runMain envA "T").summaryText.getD [] ∧
    (runMain envA "T").filesWritten
      = (runMain envA "T").outcomes.map (fun o => "counted_" ++ o.filename) ∧
    (runMain envA "T").filesWritten.length = (runMain envA "T").outcomes.length :=
  c1_totals_and_one_to_one envA "T" rfl rfl rfl (by decide) (by decide)

/-- Claim C2: Scenario A — three processed images with 5, 0 and 3 detections
(confidences as given) produce a text summary reporting 3 images, 8
specimens and an average of 2.7, and a CSV with exactly 3 data rows. -/
theorem c2_scenario_a :
    "Total Images Processed: 3" ∈ (runMain envA "T").summaryText.getD [] ∧
    "Total Specimens Detected: 8" ∈ (runMain envA "T").summaryText.getD [] ∧
    "Average Specimens per Image: 2.7" ∈ (runMain envA "T").summaryText.getD [] ∧
    ((runMain envA "T").summaryCsv.getD []).length = 3 := by decide

/-- Counterexample to claim C3: on a run whose outcome sequence is empty
(its only discovered image fails to load), the written text report contains
no average line at all — in particular not the claimed
"Average Specimens per Image: 0.0". -/
theorem c3_counterexample :
    (runMain envEmptyOutcomes "T").summaryText =
      some ["YOLO Specimen Count Detection Results",
            String.mk (List.replicate 50 '='),
            "Analysis Date: T",
            "Total Images Processed: 0",
            "Total Specimens Detected: 0",
            "",
            "Individual Image Results:",
            String.mk (List.replicate 30 '-')] ∧
    "Average Specimens per Image: 0.0"
      ∉ (runMain envEmptyOutcomes "T").summaryText.getD [] := by decide

/-- Amended C3: when the outcome sequence passed to the reporter is empty,
the report is still produced without error (no division is attempted), but
the "Average Specimens per Image" line is omitted entirely rather than
written as 0.0; the totals lines report 0. -/
theorem c3_amended_average_line_omitted (ts : String) :
    summaryTextLines ts [] =
      ["YOLO Specimen Count Detection Results",
       String.mk (List.replicate 50 '='),
       "Analysis Date: " ++ ts,
       "Total Images Processed: 0",
       "Total Specimens Detected: 0",
       "",
       "Individual Image Results:",
       String.mk (List.replicate 30 '-')] := rfl

/-- Counterexample to claim C4: a run over a directory with zero eligible
images does fail with the no-input-images reason, but the output bundle
directory has already been created at that point, contrary to the claim that
the failure precedes any bundle creation. -/
theorem c4_counterexample :
    (runMain envNoImages "T").failReason = some ("No images found") ∧
    (runMain envNoImages "T").bundleCreated = true := by decide

/-- Amended C4: if the input directory contains zero eligible images after
extension filtering, the run fails with the "No images found" reason, with
no outcomes, no annotated images and no reports — but the (empty) output
bundle directory has already been created, because bundle creation precedes
discovery in the source. -/
theorem c4_amended (env : Env) (ts : String)
    (h1 : env.modelExists = true) (h2 : env.dirExists = true)
    (h3 : env.modelLoads = true)
    (hempty : discoverImages env.listing = []) :
    runMain env ts = failTrace true ("No images found") := by
  simp [runMain, h1, h2, h3, hempty]

/-- Witness for the amended C4 at a directory containing only a text file. -/
theorem c4_witness : runMain envNoImages "T" = failTrace true ("No images found") :=
  c4_amended envNoImages "T" rfl rfl rfl (by decide)

/-- The failing-to-load file of `envOneBad`. -/
def badFile : ImageFile :=
  { name := "bad.jpg", loadResult := none, detections := [],
    writeOk := true, copyOk := true }

/-- Counterexample to claim C5: the discovered image that fails to load is
excluded from the outcomes, yet its original IS copied into
`original_images/` — the archiving loop iterates over all discovered files,
not only the successfully processed ones — contradicting the claim that such
a file is excluded from all outputs including the originals copy. -/
theorem c5_counterexample :
    (runMain envOneBad "T").originalsCopied = ["good.jpg", "bad.jpg"] ∧
    (runMain envOneBad "T").outcomes.map ImageOutcome.filename = ["good.jpg"] ∧
    (runMain envOneBad "T").success = true := by decide

/-- Amended C5: a discovered image that fails to load is excluded from the
outcomes, from the annotated-image writes and from the CSV rows, and the run
still succeeds with the remaining valid images — but the file is still
copied into `original_images/` during archiving. -/
theorem c5_amended (env : Env) (ts : String) (f : ImageFile)
    (h1 : env.modelExists = true) (h2 : env.dirExists = true)
    (h3 : env.modelLoads = true)
    (hnd : (env.listing.map ImageFile.name).Nodup)
    (hf : f ∈ discoverImages env.listing) (hload : f.loadResult = none)
    (hcopy : ∀ g ∈ env.listing, g.copyOk = true) :
    f.name ∉ (runMain env ts).outcomes.map ImageOutcome.filename ∧
    ("counted_" ++ f.name) ∉ (runMain env ts).writeCalls ∧
    f.name ∉ ((runMain env ts).summaryCsv.getD []).map (fun r => r.headD "") ∧
    (runMain env ts).success = true ∧
    f.name ∈ (runMain env ts).originalsCopied := by
  have hne : discoverImages env.listing ≠ [] := List.ne_nil_of_mem hf
  rw [runMain_processing env ts h1 h2 h3 hne]
  have hinj : ∀ x ∈ env.listing, ∀ y ∈ env.listing, x.name = y.name → x = y :=
    fun x hx y hy hxy => List.inj_on_of_nodup_map hnd hx hy hxy
  have hcall := copyOriginals_all_ok (fun g hg => hcopy g (discover_subset hg))
  have houtcome : ∀ o ∈ (discoverImages env.listing).filterMap processImage,
      o.filename ≠ f.name := by
    intro o ho hname
    obtain ⟨g, hg, hgo⟩ := List.mem_filterMap.mp ho
    have hgname : g.name = f.name := by rw [← processImage_name hgo, hname]
    have hgf : g = f := hinj g (discover_subset hg) f (discover_subset hf) hgname
    rw [hgf] at hgo
    simp [processImage, hload] at hgo
  refine ⟨?_, ?_, ?_, ?_, ?_⟩
  · intro hmem
    obtain ⟨o, ho, hname⟩ := List.mem_map.mp hmem
    exact houtcome o ho hname
  · intro hmem
    obtain ⟨g, hg, hname⟩ := List.mem_map.mp hmem
    obtain ⟨hgmem, hgsome⟩ := List.mem_filter.mp hg
    have hgname : g.name = f.name := string_append_left_cancel _ _ _ hname
    have hgf : g = f := hinj g (discover_subset hgmem) f (discover_subset hf) hgname
    rw [hgf, hload] at hgsome
    simp at hgsome
  · intro hmem
    simp only [Option.getD_some, csvRows, List.map_map, List.mem_map] at hmem
    obtain ⟨o, ho, hname⟩ := hmem
    exact houtcome o ho hname
  · show (copyOriginals (discoverImages env.listing)).2 = true
    rw [hcall]
  · show f.name ∈ (copyOriginals (discoverImages env.listing)).1
    rw [hcall]
    exact List.mem_map.mpr ⟨f, hf, rfl⟩

/-- Witness for the amended C5 at the run with one good and one unreadable
image. -/
theorem c5_witness :
    badFile.name ∉ (runMain envOneBad "T").outcomes.map ImageOutcome.filename ∧
    ("counted_" ++ badFile.name) ∉ (runMain envOneBad "T").writeCalls ∧
    badFile.name ∉ ((runMain envOneBad "T").summaryCsv.getD []).map
      (fun r => r.headD "") ∧
    (runMain envOneBad "T").success = true ∧
    badFile.name ∈ (runMain envOneBad "T").originalsCopied :=
  c5_amended envOneBad "T" badFile rfl rfl rfl (by decide) (by decide) rfl (by decide)

/-- Counterexample to claim C6: when one original's copy into
`original_images/` fails, the run does not continue best-effort — the
exception escapes the archiving loop and the run terminates as a failure
(while the reports written beforehand remain intact). -/
theorem c6_counterexample :
    (runMain envCopyFails "T").success = false ∧
    (runMain envCopyFails "T").failReason = some ("Processing failed") ∧
    (runMain envCopyFails "T").summaryCsv =
      some [["a.jpg", "1", "0.500", "10", "10"]] := by decide

/-- Amended C6: a failure to copy one original during archiving does not
affect the counts, annotated output or the already-written reports (the
summary is finalized before archiving begins), but it does abort the run:
the run terminates as a failure instead of continuing. -/
theorem c6_amended (env : Env) (ts : String) (g : ImageFile)
    (h1 : env.modelExists = true) (h2 : env.dirExists = true)
    (h3 : env.modelLoads = true)
    (hg : g ∈ discoverImages env.listing) (hbad : g.copyOk = false) :
    (runMain env ts).success = false ∧
    (runMain env ts).failReason = some ("Processing failed") ∧
    (runMain env ts).outcomes = (discoverImages env.listing).filterMap processImage ∧
    (runMain env ts).summaryText
      = some (summaryTextLines ts ((discoverImages env.listing).filterMap processImage)) ∧
    (runMain env ts).summaryCsv
      = some (csvRows ((discoverImages env.listing).filterMap processImage)) := by
  have hne : discoverImages env.listing ≠ [] := List.ne_nil_of_mem hg
  rw [runMain_processing env ts h1 h2 h3 hne]
  have hfail : (copyOriginals (discoverImages env.listing)).2 = false :=
    copyOriginals_fail hg hbad
  simp [hfail]

/-- Witness for the amended C6 at the run whose single original fails to
copy. -/
theorem c6_witness :
    (runMain envCopyFails "T").success = false ∧
    (runMain envCopyFails "T").failReason = some ("Processing failed") ∧
    (runMain envCopyFails "T").outcomes
      = (discoverImages envCopyFails.listing).filterMap processImage ∧
    (runMain envCopyFails "T").summaryText
      = some (summaryTextLines "T"
          ((discoverImages envCopyFails.listing).filterMap processImage)) ∧
    (runMain envCopyFails "T").summaryCsv
      = some (csvRows ((discoverImages envCopyFails.listing).filterMap processImage)) :=
  c6_amended envCopyFails "T"
    { name := "a.jpg", loadResult := some (10, 10),
      detections := [⟨1, 2⟩], writeOk := true, copyOk := false }
    rfl rfl rfl (by decide) rfl

/-- Counterexample to claim C7: with a text-metric oracle following OpenCV's
Hershey-simplex glyph height (about 22 pixels at scale 1), an image of
height 1000 with 5 detections gets no confidence line in its banner even
though the count is positive — the computed confidence-line position fails
the source's fit test, so the line is silently omitted. -/
theorem c7_counterexample :
    (annotateForOutcome sampleMetrics 1000 1000 5 ⟨7, 10⟩).confLine = none ∧
    0 < 5 := by decide

/-- Amended C7: the confidence line is omitted whenever `count == 0`; when
`count > 0` the average confidence is passed to the annotator, but the line
is actually drawn only when its computed position fits inside the banner
(`conf_y < banner_height - 10`), and is silently omitted otherwise. -/
theorem c7_amended (m : TextMetrics) (w h c : ℕ) (avg : Frac) :
    (annotateForOutcome m w h c avg).confLine.isSome
      = (decide (0 < c) && confLineFits m h c) := by
  unfold annotateForOutcome confLineFits
  by_cases hc : 0 < c
  · rw [if_pos hc, decide_eq_true hc, Bool.true_and]
    unfold draw_count_banner
    dsimp only
    split
    next hcond => exact (decide_eq_true hcond).symm
    next hcond => exact (decide_eq_false hcond).symm
  · rw [if_neg hc, decide_eq_false hc, Bool.false_and]
    rfl

/-- Counterexample to claim C8: for an image of height 1334 the source's
banner height is `max(80, int(1334 * 0.06)) = 80`, which is strictly below
the claimed lower bound `max(80, 0.06 * 1334) = 80.04` — the `int()`
truncation loses the fractional part. -/
theorem c8_counterexample :
    ¬ (((draw_count_banner sampleMetrics 1000 1334 0 none).bannerHeight : ℚ)
        ≥ Max.max (80 : ℚ) ((0.06 : ℚ) * 1334)) := by
  have hbh : (draw_count_banner sampleMetrics 1000 1334 0 none).bannerHeight = 80 := by
    decide
  rw [hbh]
  intro hge
  rw [ge_iff_le, max_le_iff] at hge
  norm_num at hge

/-- Amended C8: the banner height rendered by the annotator equals
`max(80, ⌊0.06 * H⌋)`; it is always at least 80 and at least `⌊0.06 * H⌋`,
and exceeds `max(80, 0.06 * H) - 1`, but can fall strictly below
`max(80, 0.06 * H)` itself because of the truncation. -/
theorem c8_amended (m : TextMetrics) (w h c : ℕ) (conf : Option Frac) :
    80 ≤ (draw_count_banner m w h c conf).bannerHeight ∧
    6 * h / 100 ≤ (draw_count_banner m w h c conf).bannerHeight ∧
    ((draw_count_banner m w h c conf).bannerHeight : ℚ)
      > Max.max 80 ((0.06 : ℚ) * h) - 1 := by
  rw [draw_count_banner_height]
  refine ⟨le_max_left _ _, le_max_right _ _, ?_⟩
  have h006 : (0.06 : ℚ) = 6 / 100 := by norm_num
  have key : ((6 * h / 100 : ℕ) : ℚ) > (0.06 : ℚ) * h - 1 := by
    have hdm : 100 * (6 * h / 100) + (6 * h) % 100 = 6 * h := Nat.div_add_mod (6 * h) 100
    have hlt : (6 * h) % 100 < 100 := Nat.mod_lt _ (by norm_num)
    have h2 : (100 : ℚ) * ((6 * h / 100 : ℕ) : ℚ) + (((6 * h) % 100 : ℕ) : ℚ)
        = 6 * (h : ℚ) := by exact_mod_cast hdm
    have h3 : (((6 * h) % 100 : ℕ) : ℚ) < 100 := by exact_mod_cast hlt
    rw [h006]
    linarith
  have hcast : ((Max.max 80 (6 * h / 100) : ℕ) : ℚ)
      = Max.max (80 : ℚ) ((6 * h / 100 : ℕ) : ℚ) := by
    rw [Nat.cast_max]
    norm_num
  rw [hcast]
  rcases le_total ((0.06 : ℚ) * h) 80 with hle | hle
  · rw [max_eq_left hle]
    have : (80 : ℚ) ≤ Max.max (80 : ℚ) ((6 * h / 100 : ℕ) : ℚ) := le_max_left _ _
    linarith
  · rw [max_eq_right hle]
    have : ((6 * h / 100 : ℕ) : ℚ) ≤ Max.max (80 : ℚ) ((6 * h / 100 : ℕ) : ℚ) :=
      le_max_right _ _
    linarith

/-- A file whose extension is a mixed-case variant of an allow-listed one. -/
def mixedCaseFile : ImageFile :=
  { name := "a.Jpg", loadResult := some (1, 1), detections := [],
    writeOk := true, copyOk := true }

/-- Counterexample to claim C9: a non-hidden file named `a.Jpg` — a case
variant of the allow-listed `jpg` extension — is not discovered at all: the
source only globs the all-lowercase and the all-uppercase spelling of each
extension, so extension matching is not case-insensitive. -/
theorem c9_counterexample : discoverImages [mixedCaseFile] = [] := by decide

/-- Amended C9: discovery enumerates exactly the non-hidden files of the
input directory whose name ends with one of the six allow-listed extensions
spelled either all-lowercase or all-uppercase; mixed-case spellings are not
matched.  Base names are compared case-sensitively, so files with identical
base names but different extension case are distinct discovered images. -/
theorem c9_amended (l : List ImageFile) (f : ImageFile) :
    f ∈ discoverImages l ↔
      f ∈ l ∧ strStartsWith f.name (".") = false ∧
        (strEndsWith f.name (".jpg") = true ∨ strEndsWith f.name (".JPG") = true ∨
         strEndsWith f.name (".jpeg") = true ∨ strEndsWith f.name (".JPEG") = true ∨
         strEndsWith f.name (".png") = true ∨ strEndsWith f.name (".PNG") = true ∨
         strEndsWith f.name (".bmp") = true ∨ strEndsWith f.name (".BMP") = true ∨
         strEndsWith f.name (".tiff") = true ∨ strEndsWith f.name (".TIFF") = true ∨
         strEndsWith f.name (".tif") = true ∨ strEndsWith f.name (".TIF") = true) :=
  mem_discoverImages

/-- Claim C10: when the annotated-image write reports failure, the pipeline
neither raises nor skips the image — the write call is made and its result
ignored, the outcome is still appended, the run continues to success, and
the image still appears in both the text report and the CSV.  (The
write-failure hypothesis is not used by the proof: the trace is independent
of the write result, which is exactly the claimed silences.) -/
theorem c10_write_failure_is_silent (env : Env) (ts : String)
    (f : ImageFile) (o : ImageOutcome)
    (h1 : env.modelExists = true) (h2 : env.dirExists = true)
    (h3 : env.modelLoads = true)
    (hnd : (env.listing.map ImageFile.name).Nodup)
    (hf : f ∈ discoverImages env.listing)
    (ho : processImage f = some o)
    (hwf : f.writeOk = false)
    (hcopy : ∀ g ∈ env.listing, g.copyOk = true) :
    o ∈ (runMain env ts).outcomes ∧
    ("Image: " ++ o.filename) ∈ (runMain env ts).summaryText.getD [] ∧
    csvRow o ∈ (runMain env ts).summaryCsv.getD [] ∧
    ("counted_" ++ f.name) ∈ (runMain env ts).writeCalls ∧
    ("counted_" ++ f.name) ∉ (runMain env ts).filesWritten ∧
    (runMain env ts).success = true := by
  have hne : discoverImages env.listing ≠ [] := List.ne_nil_of_mem hf
  rw [runMain_processing env ts h1 h2 h3 hne]
  have homem : o ∈ (discoverImages env.listing).filterMap processImage :=
    List.mem_filterMap.mpr ⟨f, hf, ho⟩
  refine ⟨homem, ?_, ?_, ?_, ?_, ?_⟩
  · simpa using image_line_mem homem ts
  · simpa [csvRows] using List.mem_map.mpr ⟨o, homem, rfl⟩
  · exact List.mem_map.mpr
      ⟨f, List.mem_filter.mpr ⟨hf, processImage_isSome ho⟩, rfl⟩
  · intro hmem
    obtain ⟨g, hg, hname⟩ := List.mem_map.mp hmem
    obtain ⟨hgmem, hgflag⟩ := List.mem_filter.mp hg
    have hgname : g.name = f.name := string_append_left_cancel _ _ _ hname
    have hgf : g = f := List.inj_on_of_nodup_map hnd
      (discover_subset hgmem) (discover_subset hf) hgname
    rw [hgf, hwf] at hgflag
    simp at hgflag
  · show (copyOriginals (discoverImages env.listing)).2 = true
    rw [copyOriginals_all_ok (fun g hg => hcopy g (discover_subset hg))]

/-- The image of `envWriteFails`, whose annotated copy fails to be written. -/
def writeFailFile : ImageFile :=
  { name := "x.jpg", loadResult := some (10, 20), detections := [⟨1, 2⟩],
    writeOk := false, copyOk := true }

/-- The outcome the pipeline records for `writeFailFile`. -/
def writeFailOutcome : ImageOutcome :=
  { filename := "x.jpg", count := 1, avg_confidence := ⟨1, 2⟩,
    image_size := (10, 20) }

/-- Witness for C10 at the run whose single image's annotated write fails. -/
theorem c10_witness :
    writeFailOutcome ∈ (runMain envWriteFails "T").outcomes ∧
    ("Image: " ++ writeFailOutcome.filename)
      ∈ (runMain envWriteFails "T").summaryText.getD [] ∧
    csvRow writeFailOutcome ∈ (runMain envWriteFails "T").summaryCsv.getD [] ∧
    ("counted_" ++ writeFailFile.name) ∈ (runMain envWriteFails "T").writeCalls ∧
    ("counted_" ++ writeFailFile.name) ∉ (runMain envWriteFails "T").filesWritten ∧
    (runMain envWriteFails "T").success = true :=
  c10_write_failure_is_silent envWriteFails "T" writeFailFile writeFailOutcome
    rfl rfl rfl (by decide) (by decide) (by decide) rfl (by decide)

end SpecimenCounter
